import Mathlib

/-!
Verification of the accident-data preparation pipeline (`prepare_data.py`)
against its specification. The pipeline merges four raw tables (accident
characteristics, locations, vehicles, persons), enriches coded columns with
labels, and computes per-accident casualty aggregates, a severity score and a
severity category.

Modelling conventions:
* a pandas `NaN` / missing value is `Option.none`;
* pandas comparisons such as `x == 2` are false on `NaN`, so they are modelled
  as equality with `some 2`;
* pandas `Series.map(dict).fillna(s)` is a dictionary lookup falling back to
  the sentinel `s`;
* a dataframe (for the generic column-enrichment function) is an association
  list from column names to lists of cells; column assignment replaces an
  existing column in place or appends a new one at the end, as pandas does.
-/

namespace Dataviz

/-- A cell of a dataframe column: an integer code, a string, or null (`NaN`). -/
inductive Cell where
  | int (i : Int)
  | str (s : String)
  | null
deriving DecidableEq, Repr

/-- A dataframe restricted to what column enrichment needs: named columns. -/
def Frame : Type := List (String × List Cell)

/-- Reading a column (`df[name]`): the first column with that name, if any. -/
def getCol : Frame → String → Option (List Cell)
  | [], _ => none
  | (k, w) :: rest, n => if k = n then some w else getCol rest n

/-- Column assignment (`df[name] = vals`): replace the column in place if it
exists, otherwise append it at the end. -/
def setCol : Frame → String → List Cell → Frame
  | [], n, v => [(n, v)]
  | (k, w) :: rest, n, v =>
      if k = n then (k, v) :: rest else (k, w) :: setCol rest n v

/-- Dictionary lookup in a code mapping (a python `dict` from codes to labels). -/
def mapLookup : List (Int × String) → Int → Option String
  | [], _ => none
  | (k, lb) :: rest, c => if k = c then some lb else mapLookup rest c

/-- One cell of `df[colonne].map(mapping).fillna('Non renseigné')`: an integer
code found in the dictionary yields its label; any other cell (an unmapped
code, a non-integer value, or null) yields the sentinel label. -/
def descOf (mapping : List (Int × String)) : Cell → Cell
  | Cell.int k =>
      match mapLookup mapping k with
      | some lb => Cell.str lb
      | none => Cell.str "Non renseigné"
  | Cell.str _ => Cell.str "Non renseigné"
  | Cell.null => Cell.str "Non renseigné"

/-- `enrichir_colonne(df, colonne, mapping)`: when the column is present, add
`<colonne>_code` as a copy of the raw column and `<colonne>_desc` as its
label translation; otherwise return the frame unchanged. -/
def enrichir_colonne (df : Frame) (colonne : String)
    (mapping : List (Int × String)) : Frame :=
  match getCol df colonne with
  | none => df
  | some vals =>
      setCol (setCol df (colonne ++ "_code") vals)
        (colonne ++ "_desc") (vals.map (descOf mapping))

/-- The `grav` entry of the source `MAPPINGS` dictionary. -/
def mapping_grav : List (Int × String) :=
  [(1, "Indemne"), (2, "Tué"), (3, "Blessé hospitalisé"), (4, "Blessé léger")]

/-- The `sexe` entry of the source `MAPPINGS` dictionary. -/
def mapping_sexe : List (Int × String) :=
  [(-1, "Non renseigné"), (1, "Masculin"), (2, "Féminin")]

/-- The `catu` entry of the source `MAPPINGS` dictionary. -/
def mapping_catu : List (Int × String) :=
  [(1, "Conducteur"), (2, "Passager"), (3, "Piéton"),
   (4, "Piéton en roller ou en trottinette")]

/-! ### Raw table rows

Only the columns the pipeline's accident-grain computation reads are kept;
every value that pandas could hold as `NaN` is an `Option`. -/

/-- A row of the characteristics table (`caract-2024.csv`), restricted to the
join key and the time string used by `determiner_periode_journee`. -/
structure Caract where
  num_acc : Nat
  hrmn : Option String
deriving DecidableEq, Repr

/-- A row of the locations table (`lieux-2024.csv`), restricted to the join
key and the nine columns the pipeline selects for the accident-grain table. -/
structure Lieu where
  num_acc : Nat
  vma : Option Int
  nbv : Option Int
  catr : Option Int
  surf : Option Int
  plan : Option Int
  prof : Option Int
  circ : Option Int
  infra : Option Int
  situ : Option Int
deriving DecidableEq, Repr

/-- A row of the vehicles table (`vehicules-2024.csv`), restricted to the
join key (only `groupby('Num_Acc').size()` reads it). -/
structure Vehicule where
  num_acc : Nat
  catv : Option Int
deriving DecidableEq, Repr

/-- A row of the persons table (`usagers-2024.csv`), restricted to the
columns read by `usagers.groupby('Num_Acc').agg(...)`. -/
structure Usager where
  num_acc : Nat
  id_usager : Option Nat
  grav : Option Int
  catu : Option Int
  sexe : Option Int
  an_nais : Option Int
deriving DecidableEq, Repr

/-! ### Per-accident aggregation (`stats_usagers`)

`usagers.groupby('Num_Acc')` partitions the persons table by accident; each
aggregation lambda below is applied to one group, which pandas guarantees is
nonempty. -/

/-- The group of person rows of one accident: `usagers` filtered by `Num_Acc`
(pandas `groupby` keeps the original row order within each group). -/
def groupeUsagers (usagers : List Usager) (acc : Nat) : List Usager :=
  usagers.filter (fun u => u.num_acc == acc)

/-- `(x == code).sum()` on the `grav` column of a group: `NaN` compares false. -/
def nb_grav_agg (g : List Usager) (code : Int) : Nat :=
  g.countP (fun u => u.grav == some code)

/-- `(x == 3).sum()` on the `catu` column: pedestrians in the group. -/
def nb_pietons_agg (g : List Usager) : Nat :=
  g.countP (fun u => u.catu == some 3)

/-- `(x == 1).sum() / len(x) if len(x) > 0 else 0` on the `sexe` column
(the `else 0` branch is unreachable on pandas groups, which are nonempty). -/
def pct_hommes_agg (g : List Usager) : ℚ :=
  if g.length > 0 then
    (g.countP (fun u => u.sexe == some 1) : ℚ) / (g.length : ℚ)
  else 0

/-- `2024 - x[x != -1].mean() if len(x[x != -1]) > 0 else None` on `an_nais`:
pandas keeps `NaN` entries in `x[x != -1]` (NaN != -1 holds) but `mean`
skips them; a mean over no remaining values is `NaN`, modelled as `none`. -/
def age_moyen_agg (g : List Usager) : Option ℚ :=
  let f := g.filter (fun u => u.an_nais != some (-1))
  if f.isEmpty then none
  else
    let valid : List Int := f.filterMap (fun u => u.an_nais)
    if valid.isEmpty then none
    else some (2024 - (valid.map (fun y : Int => (y : ℚ))).sum / (valid.length : ℚ))

/-- `'count'` on the `id_usager` column: pandas `count` counts the non-null
values only. -/
def nb_usagers_agg (g : List Usager) : Nat :=
  (g.filterMap (fun u => u.id_usager)).length

/-- The birth years that actually enter the mean-age computation: entries of
the group that are present and differ from the `-1` sentinel. -/
def validYears (g : List Usager) : List Int :=
  (g.filter (fun u => u.an_nais != some (-1))).filterMap (fun u => u.an_nais)

/-! ### Accident-grain derived columns -/

/-- `value > 0` in pandas on a possibly-`NaN` casualty count: `NaN > 0` is
false. -/
def optPos : Option Nat → Bool
  | none => false
  | some n => decide (0 < n)

/-- `categoriser_gravite(row)`: first-match-wins priority over the three
casualty counts of the row. -/
def categoriser_gravite
    (nb_tues nb_blesses_hospitalises nb_blesses_legers : Option Nat) : String :=
  if optPos nb_tues then "Mortel"
  else if optPos nb_blesses_hospitalises then "Grave"
  else if optPos nb_blesses_legers then "Léger"
  else "Matériel uniquement"

/-- `nb_tues*100 + nb_blesses_hospitalises*30 + nb_blesses_legers*10` on the
merged (hence possibly-`NaN`) count columns: `NaN` propagates. -/
def score_gravite_calc (nb_tues nb_blesses_hospitalises nb_blesses_legers :
    Option Nat) : Option Nat :=
  match nb_tues, nb_blesses_hospitalises, nb_blesses_legers with
  | some t, some h, some l => some (t * 100 + h * 30 + l * 10)
  | _, _, _ => none

/-- `lieux.drop_duplicates('Num_Acc', keep='first')`: keep the first location
row of each accident. -/
def dedupLieux : List Lieu → List Lieu
  | [] => []
  | l :: rest =>
      l :: dedupLieux (rest.filter (fun l2 => l2.num_acc != l.num_acc))
termination_by ls => ls.length
decreasing_by
  simp only [List.length_cons]
  exact Nat.lt_succ_of_le (List.length_filter_le _ _)

/-- One row of `df_accident`: the characteristics row with the person and
vehicle aggregates, the derived severity columns, and the first matching
location row's attributes merged on by `Num_Acc` (left joins: an accident
absent from a right-hand table keeps `none` there). -/
structure AccRow where
  num_acc : Nat
  hrmn : Option String
  nb_pietons : Option Nat
  pct_hommes : Option ℚ
  age_moyen : Option ℚ
  nb_usagers : Option Nat
  nb_tues : Option Nat
  nb_blesses_hospitalises : Option Nat
  nb_blesses_legers : Option Nat
  nb_indemnes : Option Nat
  nb_vehicules : Option Nat
  score_gravite : Option Nat
  categorie_gravite : String
  accident_mortel : Nat
  vma : Option Int
  nbv : Option Int
  catr : Option Int
  surf : Option Int
  plan : Option Int
  prof : Option Int
  circ : Option Int
  infra : Option Int
  situ : Option Int
deriving DecidableEq, Repr

/-- Builds the `df_accident` row of one characteristics row: the grouped
statistics exist exactly when the accident has person rows (`groupby` emits
no row for an empty group, and the left merge then leaves `NaN`), vehicle
count exactly when it has vehicle rows, and location attributes come from
the de-duplicated locations table. -/
def mkAccRow (c : Caract) (usagers : List Usager) (vehicules : List Vehicule)
    (lieux : List Lieu) : AccRow :=
  let g := groupeUsagers usagers c.num_acc
  let vg := vehicules.filter (fun v => v.num_acc == c.num_acc)
  let lr := (dedupLieux lieux).find? (fun l => l.num_acc == c.num_acc)
  let nt : Option Nat := if g.isEmpty then none else some (nb_grav_agg g 2)
  let nh : Option Nat := if g.isEmpty then none else some (nb_grav_agg g 3)
  let nl : Option Nat := if g.isEmpty then none else some (nb_grav_agg g 4)
  { num_acc := c.num_acc
    hrmn := c.hrmn
    nb_pietons := if g.isEmpty then none else some (nb_pietons_agg g)
    pct_hommes := if g.isEmpty then none else some (pct_hommes_agg g)
    age_moyen := if g.isEmpty then none else age_moyen_agg g
    nb_usagers := if g.isEmpty then none else some (nb_usagers_agg g)
    nb_tues := nt
    nb_blesses_hospitalises := nh
    nb_blesses_legers := nl
    nb_indemnes := if g.isEmpty then none else some (nb_grav_agg g 1)
    nb_vehicules := if vg.isEmpty then none else some vg.length
    score_gravite := score_gravite_calc nt nh nl
    categorie_gravite := categoriser_gravite nt nh nl
    accident_mortel := if optPos nt then 1 else 0
    vma := lr.bind (fun l => l.vma)
    nbv := lr.bind (fun l => l.nbv)
    catr := lr.bind (fun l => l.catr)
    surf := lr.bind (fun l => l.surf)
    plan := lr.bind (fun l => l.plan)
    prof := lr.bind (fun l => l.prof)
    circ := lr.bind (fun l => l.circ)
    infra := lr.bind (fun l => l.infra)
    situ := lr.bind (fun l => l.situ) }

/-- The accident-grain table: `caract` left-merged with the per-accident
statistics, the vehicle counts and the de-duplicated locations, all keyed by
`Num_Acc` whose right-hand sides are unique — one output row per `caract`
row. -/
def df_accident (caract : List Caract) (usagers : List Usager)
    (vehicules : List Vehicule) (lieux : List Lieu) : List AccRow :=
  caract.map (fun c => mkAccRow c usagers vehicules lieux)

/-! ### Temporal and demographic derivers -/

/-- The whitespace characters `int()` strips from both ends of its argument
(ASCII model of Python's whitespace set). -/
def isPyWs (c : Char) : Bool :=
  c == ' ' || c == '\t' || c == '\n' || c == '\r' ||
    c == Char.ofNat 11 || c == Char.ofNat 12

/-- A digit run as Python's `int()` accepts it: nonempty ASCII digits, with
single underscores allowed strictly between digits. -/
def digRun : List Char → Bool
  | [] => false
  | [c] => c.isDigit
  | c :: '_' :: rest => c.isDigit && digRun rest
  | c :: c2 :: rest => c.isDigit && digRun (c2 :: rest)

/-- Numeric value of a digit run, ignoring its underscores. -/
def digVal (cs : List Char) : Nat :=
  (cs.filter (fun c => c != '_')).foldl (fun acc c => acc * 10 + (c.toNat - 48)) 0

/-- Python `int(s)` (ASCII-digit model): strip surrounding whitespace, allow
one optional sign, then require a digit run; anything else raises, modelled
as `none`. -/
def pyInt (s : String) : Option Int :=
  let cs := ((s.toList.dropWhile isPyWs).reverse.dropWhile isPyWs).reverse
  match cs with
  | '-' :: rest => if digRun rest then some (-(digVal rest : Int)) else none
  | '+' :: rest => if digRun rest then some (digVal rest : Int) else none
  | rest => if digRun rest then some (digVal rest : Int) else none

/-- `int(str(heure).split(':')[0])`: the text before the first `:` (the whole
string when there is none), parsed as an integer. -/
def parseHeure (s : String) : Option Int :=
  pyInt (String.mk (s.toList.takeWhile (fun c => c != ':')))

/-- `determiner_periode_journee(heure)`: missing time strings and parse
failures (`except`) resolve to the sentinel label; otherwise the hour is
bucketed. -/
def determiner_periode_journee (heure : Option String) : String :=
  match heure with
  | none => "Non renseigné"
  | some s =>
      match parseHeure s with
      | none => "Non renseigné"
      | some h =>
          if 6 ≤ h ∧ h < 12 then "Matin"
          else if 12 ≤ h ∧ h < 18 then "Après-midi"
          else if 18 ≤ h ∧ h < 22 then "Soirée"
          else "Nuit"

/-- `calculer_age(an_nais, an_accident=2024)`: `None` for a missing or `-1`
birth year, otherwise the difference of years. -/
def calculer_age (an_nais : Option Int) (an_accident : Int := 2024) :
    Option Int :=
  match an_nais with
  | none => none
  | some y => if y = -1 then none else some (an_accident - y)

/-- `pd.cut(age, bins=[0,18,25,35,45,55,65,100], labels=[...])`: the default
`right=True` makes each bin left-open right-closed, so the bins are `(0,18]`,
`(18,25]`, …, `(65,100]`; values outside every bin (including the left edge
`0`) and missing ages get `NaN`. -/
def tranche_age (age : Option Int) : Option String :=
  match age with
  | none => none
  | some a =>
      if 0 < a ∧ a ≤ 18 then some "0-17"
      else if 18 < a ∧ a ≤ 25 then some "18-24"
      else if 25 < a ∧ a ≤ 35 then some "25-34"
      else if 35 < a ∧ a ≤ 45 then some "35-44"
      else if 45 < a ∧ a ≤ 55 then some "45-54"
      else if 55 < a ∧ a ≤ 65 then some "55-64"
      else if 65 < a ∧ a ≤ 100 then some "65+"
      else none

/-! ### Concrete rows used to instantiate the theorems -/

/-- A characteristics row: accident 1, 07:30. -/
def caractA : Caract := { num_acc := 1, hrmn := some "07:30" }

/-- A characteristics row: accident 2 with a missing time string. -/
def caractB : Caract := { num_acc := 2, hrmn := none }

/-- A killed male driver of accident 1, born 1990. -/
def usagerA : Usager :=
  { num_acc := 1, id_usager := some 10, grav := some 2, catu := some 1,
    sexe := some 1, an_nais := some 1990 }

/-- A lightly injured female pedestrian of accident 1 with the `-1`
birth-year sentinel. -/
def usagerB : Usager :=
  { num_acc := 1, id_usager := some 11, grav := some 4, catu := some 3,
    sexe := some 2, an_nais := some (-1) }

/-- An unharmed person of accident 1 whose `id_usager` is missing. -/
def usagerNoId : Usager :=
  { num_acc := 1, id_usager := none, grav := some 1, catu := some 1,
    sexe := some 1, an_nais := none }

/-- A vehicle row of accident 1. -/
def vehA : Vehicule := { num_acc := 1, catv := some 7 }

/-- A location row of accident 1. -/
def lieuA : Lieu :=
  { num_acc := 1, vma := some 50, nbv := some 2, catr := some 3,
    surf := some 1, plan := some 1, prof := some 1, circ := some 2,
    infra := some 0, situ := some 1 }

/-- A duplicate location row of accident 1 with different attributes. -/
def lieuB : Lieu :=
  { num_acc := 1, vma := some 80, nbv := some 4, catr := some 1,
    surf := some 2, plan := some 2, prof := some 2, circ := some 3,
    infra := some 1, situ := some 2 }

/-- A simple one-column frame holding `grav` codes `2`, `5` and a null. -/
def frameA : Frame := [("grav", [Cell.int 2, Cell.int 5, Cell.null])]

/-! ### Helper lemmas -/

theorem mkAccRow_num_acc (c : Caract) (u : List Usager) (v : List Vehicule)
    (l : List Lieu) : (mkAccRow c u v l).num_acc = c.num_acc := rfl

theorem mkAccRow_nb_tues (c : Caract) (u : List Usager) (v : List Vehicule)
    (l : List Lieu) :
    (mkAccRow c u v l).nb_tues
      = if (groupeUsagers u c.num_acc).isEmpty then none
        else some (nb_grav_agg (groupeUsagers u c.num_acc) 2) := rfl

theorem mkAccRow_nb_hosp (c : Caract) (u : List Usager) (v : List Vehicule)
    (l : List Lieu) :
    (mkAccRow c u v l).nb_blesses_hospitalises
      = if (groupeUsagers u c.num_acc).isEmpty then none
        else some (nb_grav_agg (groupeUsagers u c.num_acc) 3) := rfl

theorem mkAccRow_nb_legers (c : Caract) (u : List Usager) (v : List Vehicule)
    (l : List Lieu) :
    (mkAccRow c u v l).nb_blesses_legers
      = if (groupeUsagers u c.num_acc).isEmpty then none
        else some (nb_grav_agg (groupeUsagers u c.num_acc) 4) := rfl

theorem mkAccRow_nb_indemnes (c : Caract) (u : List Usager)
    (v : List Vehicule) (l : List Lieu) :
    (mkAccRow c u v l).nb_indemnes
      = if (groupeUsagers u c.num_acc).isEmpty then none
        else some (nb_grav_agg (groupeUsagers u c.num_acc) 1) := rfl

theorem mkAccRow_pct_hommes (c : Caract) (u : List Usager) (v : List Vehicule)
    (l : List Lieu) :
    (mkAccRow c u v l).pct_hommes
      = if (groupeUsagers u c.num_acc).isEmpty then none
        else some (pct_hommes_agg (groupeUsagers u c.num_acc)) := rfl

theorem mkAccRow_age_moyen (c : Caract) (u : List Usager) (v : List Vehicule)
    (l : List Lieu) :
    (mkAccRow c u v l).age_moyen
      = if (groupeUsagers u c.num_acc).isEmpty then none
        else age_moyen_agg (groupeUsagers u c.num_acc) := rfl

theorem mkAccRow_nb_usagers (c : Caract) (u : List Usager) (v : List Vehicule)
    (l : List Lieu) :
    (mkAccRow c u v l).nb_usagers
      = if (groupeUsagers u c.num_acc).isEmpty then none
        else some (nb_usagers_agg (groupeUsagers u c.num_acc)) := rfl

theorem mkAccRow_score (c : Caract) (u : List Usager) (v : List Vehicule)
    (l : List Lieu) :
    (mkAccRow c u v l).score_gravite
      = score_gravite_calc (mkAccRow c u v l).nb_tues
          (mkAccRow c u v l).nb_blesses_hospitalises
          (mkAccRow c u v l).nb_blesses_legers := rfl

theorem mkAccRow_categorie (c : Caract) (u : List Usager) (v : List Vehicule)
    (l : List Lieu) :
    (mkAccRow c u v l).categorie_gravite
      = categoriser_gravite (mkAccRow c u v l).nb_tues
          (mkAccRow c u v l).nb_blesses_hospitalises
          (mkAccRow c u v l).nb_blesses_legers := rfl

theorem mkAccRow_mortel (c : Caract) (u : List Usager) (v : List Vehicule)
    (l : List Lieu) :
    (mkAccRow c u v l).accident_mortel
      = if optPos (mkAccRow c u v l).nb_tues then 1 else 0 := rfl

theorem mkAccRow_catr (c : Caract) (u : List Usager) (v : List Vehicule)
    (l : List Lieu) :
    (mkAccRow c u v l).catr
      = ((dedupLieux l).find? (fun x => x.num_acc == c.num_acc)).bind
          (fun x => x.catr) := rfl

theorem mkAccRow_vma (c : Caract) (u : List Usager) (v : List Vehicule)
    (l : List Lieu) :
    (mkAccRow c u v l).vma
      = ((dedupLieux l).find? (fun x => x.num_acc == c.num_acc)).bind
          (fun x => x.vma) := rfl

theorem mkAccRow_surf (c : Caract) (u : List Usager) (v : List Vehicule)
    (l : List Lieu) :
    (mkAccRow c u v l).surf
      = ((dedupLieux l).find? (fun x => x.num_acc == c.num_acc)).bind
          (fun x => x.surf) := rfl

/-- `find?` over a filter that keeps everything the predicate could match. -/
theorem find?_filter_of_imp {α : Type} (p q : α → Bool)
    (h : ∀ x, p x = true → q x = true) (l : List α) :
    (l.filter q).find? p = l.find? p := by
  induction l with
  | nil => rfl
  | cons x xs ih =>
    by_cases hq : q x = true
    · by_cases hp : p x = true <;>
        simp [List.filter_cons, hq, List.find?_cons, hp, ih]
    · have hp : ¬ p x = true := fun hp => hq (h x hp)
      simp [List.filter_cons, hq, List.find?_cons, hp, ih]

/-- Keeping only the first location row per accident does not change which
row `find?` (first match) returns. -/
theorem find?_dedupLieux (ls : List Lieu) (a : Nat) :
    (dedupLieux ls).find? (fun x => x.num_acc == a)
      = ls.find? (fun x => x.num_acc == a) := by
  induction ls using dedupLieux.induct with
  | case1 => simp [dedupLieux]
  | case2 l rest ih =>
    rw [dedupLieux]
    by_cases h : (l.num_acc == a) = true
    · simp [List.find?_cons, h]
    · simp only [List.find?_cons, h, cond_false, Bool.false_eq_true,
        if_false]
      rw [ih, find?_filter_of_imp]
      intro x hx
      simp only [beq_iff_eq] at hx h
      simp [bne_iff_ne, hx, Ne, h]
      intro he
      exact h he.symm

/-- `count` on a column with no nulls equals the group size. -/
theorem length_filterMap_id_usager (l : List Usager)
    (h : ∀ u ∈ l, u.id_usager ≠ none) :
    (l.filterMap (fun u => u.id_usager)).length = l.length := by
  induction l with
  | nil => rfl
  | cons x xs ih =>
    obtain ⟨w, hw⟩ := Option.ne_none_iff_exists'.mp (h x (by simp))
    simp [List.filterMap_cons, hw,
      ih (fun u hu => h u (by simp [hu]))]

/-- Sum of the affine image `2024 - y` of a list of years. -/
theorem sum_map_sub (l : List Int) :
    (l.map (fun y : Int => ((2024 : ℚ) - (y : ℚ)))).sum
      = (l.length : ℚ) * 2024 - (l.map (fun y : Int => (y : ℚ))).sum := by
  induction l with
  | nil => simp
  | cons x xs ih =>
    simp only [List.map_cons, List.sum_cons, List.length_cons, ih]
    push_cast
    ring

/-- The mean-age rewriting: `2024 - mean(years) = mean(2024 - year)`. -/
theorem mean_sub_eq (l : List Int) (hl : l ≠ []) :
    (2024 : ℚ) - (l.map (fun y : Int => (y : ℚ))).sum / (l.length : ℚ)
      = ((l.map (fun y : Int => ((2024 : ℚ) - (y : ℚ)))).sum)
          / (l.length : ℚ) := by
  have h0 : l.length ≠ 0 := by simpa using hl
  have hn : (l.length : ℚ) ≠ 0 := Nat.cast_ne_zero.mpr h0
  rw [sum_map_sub]
  field_simp
  ring

/-- `age_moyen_agg` in terms of the valid birth years of the group. -/
theorem age_moyen_agg_eq (g : List Usager) :
    age_moyen_agg g
      = if validYears g = [] then none
        else some (2024 - ((validYears g).map (fun y : Int => (y : ℚ))).sum
          / ((validYears g).length : ℚ)) := by
  have hvy : validYears g
      = (g.filter (fun u => u.an_nais != some (-1))).filterMap
          (fun u => u.an_nais) := rfl
  by_cases hf : (g.filter (fun u => u.an_nais != some (-1))) = []
  · simp [age_moyen_agg, validYears, hf]
  · by_cases hv :
        ((g.filter (fun u => u.an_nais != some (-1))).filterMap
          (fun u => u.an_nais)) = []
    · simp [age_moyen_agg, validYears, hf, hv, List.isEmpty_iff]
    · simp [age_moyen_agg, validYears, hf, hv, List.isEmpty_iff]

/-- The four-way case split of the severity classifier. -/
theorem categoriser_gravite_mem (a b c : Option Nat) :
    categoriser_gravite a b c
      ∈ (["Mortel", "Grave", "Léger", "Matériel uniquement"] : List String) := by
  unfold categoriser_gravite
  split_ifs <;> simp

theorem getCol_setCol_self (df : Frame) (n : String) (v : List Cell) :
    getCol (setCol df n v) n = some v := by
  induction df with
  | nil => simp [setCol, getCol]
  | cons kv rest ih =>
    obtain ⟨k, w⟩ := kv
    by_cases h : k = n <;> simp [setCol, getCol, h, ih]

theorem getCol_setCol_ne (df : Frame) (n m : String) (v : List Cell)
    (h : m ≠ n) : getCol (setCol df n v) m = getCol df m := by
  induction df with
  | nil => simp [setCol, getCol, Ne.symm h]
  | cons kv rest ih =>
    obtain ⟨k, w⟩ := kv
    by_cases hk : k = n
    · subst hk
      simp [setCol, getCol, Ne.symm h]
    · simp [setCol, getCol, hk, ih]

theorem append_suffix_ne (c t : String) (ht : t ≠ "") : c ++ t ≠ c := by
  intro h
  have hlen := congrArg String.length h
  rw [String.length_append] at hlen
  have : t.length = 0 := by omega
  exact ht (by
    cases t with
    | mk data =>
      cases data with
      | nil => rfl
      | cons a as => simp [String.length] at this)

theorem code_ne_desc (c : String) : c ++ "_code" ≠ c ++ "_desc" := by
  intro h
  have hd := congrArg String.data h
  rw [String.data_append, String.data_append] at hd
  have := List.append_cancel_left hd
  exact absurd (congrArg String.mk this) (by decide)

/-- Setting every birth year to the sentinel leaves no valid year. -/
theorem validYears_sentinel (l : List Usager) :
    validYears (l.map (fun u => { u with an_nais := some (-1) })) = [] := by
  induction l with
  | nil => rfl
  | cons x xs ih => simp [validYears, List.filter_cons, ih]

/-- Changing birth years does not change the `id_usager` count. -/
theorem nb_usagers_agg_set_nais (l : List Usager) (y : Option Int) :
    nb_usagers_agg (l.map (fun u => { u with an_nais := y }))
      = nb_usagers_agg l := by
  simp only [nb_usagers_agg, List.filterMap_map]
  rfl

/-! ### Claim theorems -/

/-- C1: for every accident row of the accident-grain table whose casualty
counts are defined, `score_gravite` equals
`nb_tues*100 + nb_blesses_hospitalises*30 + nb_blesses_legers*10` exactly. -/
theorem C1_score_gravite (caract : List Caract) (usagers : List Usager)
    (vehicules : List Vehicule) (lieux : List Lieu) (r : AccRow)
    (hr : r ∈ df_accident caract usagers vehicules lieux)
    (t h l : Nat) (ht : r.nb_tues = some t)
    (hh : r.nb_blesses_hospitalises = some h)
    (hl : r.nb_blesses_legers = some l) :
    r.score_gravite = some (t * 100 + h * 30 + l * 10) := by
  obtain ⟨c, hc, rfl⟩ := List.mem_map.mp hr
  rw [mkAccRow_score, ht, hh, hl]
  rfl

/-- C1 witness: accident 1 with persons [killed, lightly injured] gets
`score_gravite = 1*100 + 0*30 + 1*10 = 110`. -/
theorem C1_score_gravite_witness :
    (mkAccRow caractA [usagerA, usagerB] [vehA] [lieuA]).score_gravite
      = some 110 := by
  have hmem : mkAccRow caractA [usagerA, usagerB] [vehA] [lieuA]
      ∈ df_accident [caractA] [usagerA, usagerB] [vehA] [lieuA] :=
    List.mem_map.mpr ⟨caractA, by simp, rfl⟩
  have h := C1_score_gravite [caractA] [usagerA, usagerB] [vehA] [lieuA] _
    hmem 1 0 1 (by decide) (by decide) (by decide)
  simpa using h

/-- C2: `categorie_gravite` is assigned in strict priority order, first match
wins: a positive `nb_tues` yields the fatal class (`'Mortel'`, the spec's
"Fatal") regardless of the other counts; otherwise a positive
`nb_blesses_hospitalises` yields the severe class (`'Grave'`); otherwise a
positive `nb_blesses_legers` yields the light class (`'Léger'`); otherwise
the material-damage-only class (`'Matériel uniquement'`). -/
theorem C2_categorie_priorite (caract : List Caract) (usagers : List Usager)
    (vehicules : List Vehicule) (lieux : List Lieu) (r : AccRow)
    (hr : r ∈ df_accident caract usagers vehicules lieux) :
    (∀ t : Nat, r.nb_tues = some t → 0 < t →
      r.categorie_gravite = "Mortel")
    ∧ (optPos r.nb_tues = false → optPos r.nb_blesses_hospitalises = true →
        r.categorie_gravite = "Grave")
    ∧ (optPos r.nb_tues = false → optPos r.nb_blesses_hospitalises = false →
        optPos r.nb_blesses_legers = true → r.categorie_gravite = "Léger")
    ∧ (optPos r.nb_tues = false → optPos r.nb_blesses_hospitalises = false →
        optPos r.nb_blesses_legers = false →
        r.categorie_gravite = "Matériel uniquement") := by
  obtain ⟨c, hc, rfl⟩ := List.mem_map.mp hr
  simp only [mkAccRow_categorie]
  refine ⟨?_, ?_, ?_, ?_⟩
  · intro t ht hpos
    rw [ht]
    simp [categoriser_gravite, optPos, hpos]
  · intro h1 h2
    simp [categoriser_gravite, h1, h2]
  · intro h1 h2 h3
    simp [categoriser_gravite, h1, h2, h3]
  · intro h1 h2 h3
    simp [categoriser_gravite, h1, h2, h3]

/-- C2 witness: accident 1 with one fatality and one light injury is
classified `'Mortel'`, not averaged. -/
theorem C2_categorie_priorite_witness :
    (mkAccRow caractA [usagerA, usagerB] [vehA] [lieuA]).categorie_gravite
      = "Mortel" := by
  have hmem : mkAccRow caractA [usagerA, usagerB] [vehA] [lieuA]
      ∈ df_accident [caractA] [usagerA, usagerB] [vehA] [lieuA] :=
    List.mem_map.mpr ⟨caractA, by simp, rfl⟩
  exact (C2_categorie_priorite [caractA] [usagerA, usagerB] [vehA] [lieuA] _
    hmem).1 1 (by decide) (by decide)

/-- C8: the time-of-day derivation returns `'Matin'` (morning) for a parsed
hour in `[6,12)`, `'Après-midi'` (afternoon) for `[12,18)`, `'Soirée'`
(evening) for `[18,22)`, `'Nuit'` (night) otherwise, and the sentinel label
`'Non renseigné'` for a missing or unparseable time string; being a total
function, it never raises. -/
theorem C8_periode_journee (heure : Option String) :
    (heure = none → determiner_periode_journee heure = "Non renseigné")
    ∧ (∀ s, heure = some s → parseHeure s = none →
        determiner_periode_journee heure = "Non renseigné")
    ∧ (∀ s (h : Int), heure = some s → parseHeure s = some h →
        ((6 ≤ h → h < 12 → determiner_periode_journee heure = "Matin")
         ∧ (12 ≤ h → h < 18 →
             determiner_periode_journee heure = "Après-midi")
         ∧ (18 ≤ h → h < 22 → determiner_periode_journee heure = "Soirée")
         ∧ (h < 6 ∨ 22 ≤ h →
             determiner_periode_journee heure = "Nuit"))) := by
  refine ⟨?_, ?_, ?_⟩
  · intro h
    subst h
    rfl
  · intro s hs hp
    subst hs
    simp [determiner_periode_journee, hp]
  · intro s h hs hp
    subst hs
    simp only [determiner_periode_journee, hp]
    refine ⟨?_, ?_, ?_, ?_⟩
    · intro h1 h2
      split_ifs <;> first | rfl | omega
    · intro h1 h2
      split_ifs <;> first | rfl | omega
    · intro h1 h2
      split_ifs <;> first | rfl | omega
    · intro h1
      rcases h1 with h1 | h1 <;> split_ifs <;> first | rfl | omega

/-- C8 witness: `"07:30"` is morning, a missing time and an unparseable time
give the sentinel, `"23:45"` is night. -/
theorem C8_periode_journee_witness :
    determiner_periode_journee (some "07:30") = "Matin"
    ∧ determiner_periode_journee none = "Non renseigné"
    ∧ determiner_periode_journee (some "abc") = "Non renseigné"
    ∧ determiner_periode_journee (some "23:45") = "Nuit" := by
  refine ⟨?_, ?_, ?_, ?_⟩
  · exact ((C8_periode_journee (some "07:30")).2.2 "07:30" 7 rfl
      (by decide)).1 (by decide) (by decide)
  · exact (C8_periode_journee none).1 rfl
  · exact (C8_periode_journee (some "abc")).2.1 "abc" rfl (by decide)
  · exact ((C8_periode_journee (some "23:45")).2.2 "23:45" 23 rfl
      (by decide)).2.2.2 (by decide)

/-- C9: an accident of the characteristics table with no person row gets
null casualty counts after the left merge, yet is classified
`'Matériel uniquement'` and has `accident_mortel = 0` (`NaN > 0` is false);
moreover the severity class and the fatal flag are never null on any row
(the class is always one of the four labels and the flag is always 0 or 1). -/
theorem C9_sans_usagers (caract : List Caract) (usagers : List Usager)
    (vehicules : List Vehicule) (lieux : List Lieu) (c : Caract)
    (hc : c ∈ caract)
    (hg : groupeUsagers usagers c.num_acc = []) :
    mkAccRow c usagers vehicules lieux
      ∈ df_accident caract usagers vehicules lieux
    ∧ (mkAccRow c usagers vehicules lieux).nb_tues = none
    ∧ (mkAccRow c usagers vehicules lieux).nb_blesses_hospitalises = none
    ∧ (mkAccRow c usagers vehicules lieux).nb_blesses_legers = none
    ∧ (mkAccRow c usagers vehicules lieux).nb_indemnes = none
    ∧ (mkAccRow c usagers vehicules lieux).categorie_gravite
        = "Matériel uniquement"
    ∧ (mkAccRow c usagers vehicules lieux).accident_mortel = 0
    ∧ (∀ r ∈ df_accident caract usagers vehicules lieux,
        r.categorie_gravite
            ∈ (["Mortel", "Grave", "Léger", "Matériel uniquement"] :
              List String)
          ∧ (r.accident_mortel = 0 ∨ r.accident_mortel = 1)) := by
  have hmem : mkAccRow c usagers vehicules lieux
      ∈ df_accident caract usagers vehicules lieux :=
    List.mem_map.mpr ⟨c, hc, rfl⟩
  have he : (groupeUsagers usagers c.num_acc).isEmpty = true := by
    simp [hg]
  refine ⟨hmem, ?_, ?_, ?_, ?_, ?_, ?_, ?_⟩
  · rw [mkAccRow_nb_tues, if_pos he]
  · rw [mkAccRow_nb_hosp, if_pos he]
  · rw [mkAccRow_nb_legers, if_pos he]
  · rw [mkAccRow_nb_indemnes, if_pos he]
  · rw [mkAccRow_categorie, mkAccRow_nb_tues, mkAccRow_nb_hosp,
      mkAccRow_nb_legers, if_pos he, if_pos he, if_pos he]
    rfl
  · rw [mkAccRow_mortel, mkAccRow_nb_tues, if_pos he]
    rfl
  · intro r hr
    obtain ⟨c', hc', rfl⟩ := List.mem_map.mp hr
    refine ⟨?_, ?_⟩
    · rw [mkAccRow_categorie]
      exact categoriser_gravite_mem _ _ _
    · rw [mkAccRow_mortel]
      by_cases hp : optPos (mkAccRow c' usagers vehicules lieux).nb_tues <;>
        simp [hp]

/-- C9 witness: accident 2 has no person row; its counts are null but its
class is `'Matériel uniquement'` and its fatal flag is 0. -/
theorem C9_sans_usagers_witness :
    (mkAccRow caractB [usagerA] [] []).nb_tues = none
    ∧ (mkAccRow caractB [usagerA] [] []).categorie_gravite
        = "Matériel uniquement"
    ∧ (mkAccRow caractB [usagerA] [] []).accident_mortel = 0 := by
  have h := C9_sans_usagers [caractB] [usagerA] [] [] caractB (by simp)
    (by decide)
  exact ⟨h.2.1, h.2.2.2.2.2.1, h.2.2.2.2.2.2.1⟩

/-- C10: the age buckets of `pd.cut` with bin edges
`[0,18,25,35,45,55,65,100]` are left-open right-closed: a derived age of
exactly 0 (born in the reference year) or above 100 gets a null bucket, age
exactly 18 falls in `'0-17'`, and likewise each upper edge belongs to the
lower-labelled bucket. -/
theorem C10_tranche_age :
    tranche_age none = none
    ∧ (∀ a : Int, a ≤ 0 → tranche_age (some a) = none)
    ∧ (∀ a : Int, 100 < a → tranche_age (some a) = none)
    ∧ (∀ a : Int, 0 < a → a ≤ 18 → tranche_age (some a) = some "0-17")
    ∧ (∀ a : Int, 18 < a → a ≤ 25 → tranche_age (some a) = some "18-24")
    ∧ (∀ a : Int, 25 < a → a ≤ 35 → tranche_age (some a) = some "25-34")
    ∧ (∀ a : Int, 35 < a → a ≤ 45 → tranche_age (some a) = some "35-44")
    ∧ (∀ a : Int, 45 < a → a ≤ 55 → tranche_age (some a) = some "45-54")
    ∧ (∀ a : Int, 55 < a → a ≤ 65 → tranche_age (some a) = some "55-64")
    ∧ (∀ a : Int, 65 < a → a ≤ 100 → tranche_age (some a) = some "65+")
    ∧ tranche_age (calculer_age (some 2024)) = none := by
  refine ⟨rfl, ?_, ?_, ?_, ?_, ?_, ?_, ?_, ?_, ?_, by decide⟩
  · intro a h1
    simp only [tranche_age]
    rw [if_neg (by omega), if_neg (by omega), if_neg (by omega),
      if_neg (by omega), if_neg (by omega), if_neg (by omega),
      if_neg (by omega)]
  · intro a h1
    simp only [tranche_age]
    rw [if_neg (by omega), if_neg (by omega), if_neg (by omega),
      if_neg (by omega), if_neg (by omega), if_neg (by omega),
      if_neg (by omega)]
  · intro a h1 h2
    simp only [tranche_age]
    rw [if_pos ⟨h1, h2⟩]
  · intro a h1 h2
    simp only [tranche_age]
    rw [if_neg (by omega), if_pos ⟨h1, h2⟩]
  · intro a h1 h2
    simp only [tranche_age]
    rw [if_neg (by omega), if_neg (by omega), if_pos ⟨h1, h2⟩]
  · intro a h1 h2
    simp only [tranche_age]
    rw [if_neg (by omega), if_neg (by omega), if_neg (by omega),
      if_pos ⟨h1, h2⟩]
  · intro a h1 h2
    simp only [tranche_age]
    rw [if_neg (by omega), if_neg (by omega), if_neg (by omega),
      if_neg (by omega), if_pos ⟨h1, h2⟩]
  · intro a h1 h2
    simp only [tranche_age]
    rw [if_neg (by omega), if_neg (by omega), if_neg (by omega),
      if_neg (by omega), if_neg (by omega), if_pos ⟨h1, h2⟩]
  · intro a h1 h2
    simp only [tranche_age]
    rw [if_neg (by omega), if_neg (by omega), if_neg (by omega),
      if_neg (by omega), if_neg (by omega), if_neg (by omega),
      if_pos ⟨h1, h2⟩]

/-- C10 witness: age 18 lands in `'0-17'`; the boundary ages 0 and 101 and a
missing age get a null bucket. -/
theorem C10_tranche_age_witness :
    tranche_age (some 18) = some "0-17" ∧ tranche_age (some 0) = none
    ∧ tranche_age (some 101) = none ∧ tranche_age none = none := by
  exact ⟨C10_tranche_age.2.2.2.1 18 (by decide) (by decide),
    C10_tranche_age.2.1 0 (by decide),
    C10_tranche_age.2.2.1 101 (by decide),
    C10_tranche_age.1⟩

/-- C3: for every accident with at least one person row, `age_moyen` equals
the mean of `2024 - birth_year` over the persons of the group whose birth
year is not the `-1` sentinel (the source computes `2024 - mean(years)`,
which is the same mean), and is null when no person of the group has a valid
birth year; replacing every birth year by the sentinel empties the mean's
input but leaves `nb_usagers_agg`, the count behind `nb_usagers`,
unchanged. -/
theorem C3_age_moyen (caract : List Caract) (usagers : List Usager)
    (vehicules : List Vehicule) (lieux : List Lieu) (r : AccRow)
    (hr : r ∈ df_accident caract usagers vehicules lieux)
    (hg : groupeUsagers usagers r.num_acc ≠ []) :
    (validYears (groupeUsagers usagers r.num_acc) = [] → r.age_moyen = none)
    ∧ (validYears (groupeUsagers usagers r.num_acc) ≠ [] →
        r.age_moyen = some
          ((((validYears (groupeUsagers usagers r.num_acc)).map
              (fun y : Int => ((2024 : ℚ) - (y : ℚ)))).sum)
            / ((validYears (groupeUsagers usagers r.num_acc)).length : ℚ)))
    ∧ nb_usagers_agg ((groupeUsagers usagers r.num_acc).map
        (fun u => { u with an_nais := some (-1) }))
        = nb_usagers_agg (groupeUsagers usagers r.num_acc)
    ∧ validYears ((groupeUsagers usagers r.num_acc).map
        (fun u => { u with an_nais := some (-1) })) = [] := by
  obtain ⟨c, hc, rfl⟩ := List.mem_map.mp hr
  simp only [mkAccRow_num_acc] at hg ⊢
  have hne : ¬ (groupeUsagers usagers c.num_acc).isEmpty = true := by
    simpa [List.isEmpty_iff] using hg
  refine ⟨?_, ?_, nb_usagers_agg_set_nais _ _, validYears_sentinel _⟩
  · intro hv
    rw [mkAccRow_age_moyen, if_neg hne, age_moyen_agg_eq, if_pos hv]
  · intro hv
    rw [mkAccRow_age_moyen, if_neg hne, age_moyen_agg_eq, if_neg hv,
      mean_sub_eq _ hv]

/-- C3 witness: accident 1 with births [1990, sentinel] has
`age_moyen = (2024-1990)/1 = 34`, and the sentinel person still counts in
the non-null-id count. -/
theorem C3_age_moyen_witness :
    (mkAccRow caractA [usagerA, usagerB] [] []).age_moyen = some 34
    ∧ nb_usagers_agg ((groupeUsagers [usagerA, usagerB]
        (mkAccRow caractA [usagerA, usagerB] [] []).num_acc).map
          (fun u => { u with an_nais := some (-1) })) = 2 := by
  have hmem : mkAccRow caractA [usagerA, usagerB] [] []
      ∈ df_accident [caractA] [usagerA, usagerB] [] [] :=
    List.mem_map.mpr ⟨caractA, by simp, rfl⟩
  have h := C3_age_moyen [caractA] [usagerA, usagerB] [] [] _ hmem
    (by decide)
  have hv : validYears (groupeUsagers [usagerA, usagerB]
      (mkAccRow caractA [usagerA, usagerB] [] []).num_acc) = [1990] := by
    decide
  constructor
  · rw [h.2.1 (by decide), hv]
    norm_num
  · rw [h.2.2.1]
    decide

/-- C4 counterexample: the claim says `pct_hommes` is 0 for an accident with
no persons. The persons table here is nonempty (so the statistics frame is
well-formed and the run completes) but holds only a person of accident 1;
for accident 2 the `groupby` emits no statistics row and the left merge
leaves `pct_hommes` null, not 0. -/
theorem C4_pct_hommes_counterexample :
    (df_accident [caractB] [usagerA] [] []).map (fun r => r.pct_hommes)
      = [none]
    ∧ (none : Option ℚ) ≠ some 0 := by
  exact ⟨rfl, by simp⟩

/-- C4 (amended): for every accident with at least one person row,
`pct_hommes` equals the count of persons with male sex code 1 divided by the
group size; for an accident with no person row it is null (the source's
`else 0` fallback is unreachable because pandas groups are nonempty, and the
left merge produces `NaN`). -/
theorem C4_pct_hommes (caract : List Caract) (usagers : List Usager)
    (vehicules : List Vehicule) (lieux : List Lieu) (r : AccRow)
    (hr : r ∈ df_accident caract usagers vehicules lieux) :
    (groupeUsagers usagers r.num_acc ≠ [] →
      r.pct_hommes = some
        (((groupeUsagers usagers r.num_acc).countP
            (fun u => u.sexe == some 1) : ℚ)
          / ((groupeUsagers usagers r.num_acc).length : ℚ)))
    ∧ (groupeUsagers usagers r.num_acc = [] → r.pct_hommes = none) := by
  obtain ⟨c, hc, rfl⟩ := List.mem_map.mp hr
  simp only [mkAccRow_num_acc]
  constructor
  · intro hne
    have hEmpty : ¬ (groupeUsagers usagers c.num_acc).isEmpty = true := by
      simpa [List.isEmpty_iff] using hne
    rw [mkAccRow_pct_hommes, if_neg hEmpty]
    unfold pct_hommes_agg
    rw [if_pos (List.length_pos.mpr hne)]
  · intro hemp
    rw [mkAccRow_pct_hommes, if_pos (by simp [hemp])]

/-- C4 witness: accident 1 with persons [male, female] has
`pct_hommes = 1/2`; accident 2 with no persons has a null `pct_hommes`. -/
theorem C4_pct_hommes_witness :
    (mkAccRow caractA [usagerA, usagerB] [] []).pct_hommes
      = some (1 / 2 : ℚ)
    ∧ (mkAccRow caractB [usagerA] [] []).pct_hommes = none := by
  have hmem : mkAccRow caractA [usagerA, usagerB] [] []
      ∈ df_accident [caractA] [usagerA, usagerB] [] [] :=
    List.mem_map.mpr ⟨caractA, by simp, rfl⟩
  have hmem2 : mkAccRow caractB [usagerA] [] []
      ∈ df_accident [caractB] [usagerA] [] [] :=
    List.mem_map.mpr ⟨caractB, by simp, rfl⟩
  constructor
  · have h := (C4_pct_hommes [caractA] [usagerA, usagerB] [] [] _ hmem).1
      (by decide)
    rw [h]
    have hc : (groupeUsagers [usagerA, usagerB]
        (mkAccRow caractA [usagerA, usagerB] [] []).num_acc).countP
          (fun u => u.sexe == some 1) = 1 := by decide
    have hl : (groupeUsagers [usagerA, usagerB]
        (mkAccRow caractA [usagerA, usagerB] [] []).num_acc).length = 2 := by
      decide
    rw [hc, hl]
    norm_num
  · exact (C4_pct_hommes [caractB] [usagerA] [] [] _ hmem2).2 (by decide)

/-- C5 counterexample: the claim says `nb_usagers` equals the number of
person rows grouped under the accident, but the source computes it as the
pandas `count` of `id_usager`, which skips null ids: one person row with a
null `id_usager` yields `nb_usagers = 0`, not 1. -/
theorem C5_nb_usagers_counterexample :
    (df_accident [caractA] [usagerNoId] [] []).map (fun r => r.nb_usagers)
      = [some 0]
    ∧ ([usagerNoId].countP (fun u => u.num_acc == caractA.num_acc)) = 1
    ∧ (some 0 : Option Nat) ≠ some 1 := by
  exact ⟨rfl, by decide, by decide⟩

/-- C5 (amended): for every accident with at least one person row,
`nb_usagers` equals the count of that accident's person rows whose
`id_usager` is non-null (pandas `'count'` semantics); when every person row
of the group has a non-null `id_usager` this equals the number of person
rows grouped under that `Num_Acc`. -/
theorem C5_nb_usagers (caract : List Caract) (usagers : List Usager)
    (vehicules : List Vehicule) (lieux : List Lieu) (r : AccRow)
    (hr : r ∈ df_accident caract usagers vehicules lieux)
    (hg : groupeUsagers usagers r.num_acc ≠ []) :
    r.nb_usagers = some (nb_usagers_agg (groupeUsagers usagers r.num_acc))
    ∧ ((∀ u ∈ groupeUsagers usagers r.num_acc, u.id_usager ≠ none) →
        r.nb_usagers = some (groupeUsagers usagers r.num_acc).length) := by
  obtain ⟨c, hc, rfl⟩ := List.mem_map.mp hr
  simp only [mkAccRow_num_acc] at hg ⊢
  have hne : ¬ (groupeUsagers usagers c.num_acc).isEmpty = true := by
    simpa [List.isEmpty_iff] using hg
  constructor
  · rw [mkAccRow_nb_usagers, if_neg hne]
  · intro hall
    rw [mkAccRow_nb_usagers, if_neg hne]
    unfold nb_usagers_agg
    rw [length_filterMap_id_usager _ hall]

/-- C5 witness: accident 1 with two persons carrying ids gets
`nb_usagers = 2`. -/
theorem C5_nb_usagers_witness :
    (mkAccRow caractA [usagerA, usagerB] [] []).nb_usagers = some 2 := by
  have hmem : mkAccRow caractA [usagerA, usagerB] [] []
      ∈ df_accident [caractA] [usagerA, usagerB] [] [] :=
    List.mem_map.mpr ⟨caractA, by simp, rfl⟩
  have h := (C5_nb_usagers [caractA] [usagerA, usagerB] [] [] _ hmem
    (by decide)).2 (by decide)
  exact h.trans (by decide)

/-- C6: on a frame where the coded column is present, enrichment adds a
`<col>_code` column equal to the raw column, keeps the original column
unchanged, and adds a `<col>_desc` column whose cells are the dictionary
label of the code, with unmapped and null codes resolving to the sentinel
label `'Non renseigné'` (the function is total, so it never raises); the
`_code` column reproduces the raw values exactly (round-trip). -/
theorem C6_enrichissement (df : Frame) (colonne : String)
    (mapping : List (Int × String)) (vals : List Cell)
    (hc : getCol df colonne = some vals) :
    getCol (enrichir_colonne df colonne mapping) colonne = some vals
    ∧ getCol (enrichir_colonne df colonne mapping) (colonne ++ "_code")
        = some vals
    ∧ getCol (enrichir_colonne df colonne mapping) (colonne ++ "_desc")
        = some (vals.map (descOf mapping))
    ∧ (∀ k lb, mapLookup mapping k = some lb →
        descOf mapping (Cell.int k) = Cell.str lb)
    ∧ (∀ k, mapLookup mapping k = none →
        descOf mapping (Cell.int k) = Cell.str "Non renseigné")
    ∧ descOf mapping Cell.null = Cell.str "Non renseigné" := by
  have hcode : (colonne ++ "_code") ≠ colonne :=
    append_suffix_ne _ _ (by decide)
  have hdesc : (colonne ++ "_desc") ≠ colonne :=
    append_suffix_ne _ _ (by decide)
  have hcd : (colonne ++ "_code") ≠ (colonne ++ "_desc") :=
    code_ne_desc colonne
  have he : enrichir_colonne df colonne mapping
      = setCol (setCol df (colonne ++ "_code") vals)
          (colonne ++ "_desc") (vals.map (descOf mapping)) := by
    unfold enrichir_colonne
    rw [hc]
  refine ⟨?_, ?_, ?_, ?_, ?_, rfl⟩
  · rw [he, getCol_setCol_ne _ _ _ _ (Ne.symm hdesc),
      getCol_setCol_ne _ _ _ _ (Ne.symm hcode)]
    exact hc
  · rw [he, getCol_setCol_ne _ _ _ _ hcd, getCol_setCol_self]
  · rw [he, getCol_setCol_self]
  · intro k lb hlb
    simp [descOf, hlb]
  · intro k hk
    simp [descOf, hk]

/-- C6 witness: enriching the `grav` column of a concrete frame keeps the
raw codes, copies them into `grav_code`, and labels code 2 as `'Tué'` while
the unmapped code 5 and the null cell become `'Non renseigné'`. -/
theorem C6_enrichissement_witness :
    getCol (enrichir_colonne frameA "grav" mapping_grav) "grav"
      = some [Cell.int 2, Cell.int 5, Cell.null]
    ∧ getCol (enrichir_colonne frameA "grav" mapping_grav) ("grav" ++ "_code")
        = some [Cell.int 2, Cell.int 5, Cell.null]
    ∧ getCol (enrichir_colonne frameA "grav" mapping_grav) ("grav" ++ "_desc")
        = some [Cell.str "Tué", Cell.str "Non renseigné",
            Cell.str "Non renseigné"] := by
  have h := C6_enrichissement frameA "grav" mapping_grav
    [Cell.int 2, Cell.int 5, Cell.null] rfl
  refine ⟨h.1, h.2.1, ?_⟩
  rw [h.2.2.1]
  rfl

/-- C7: the accident-grain table has exactly one row per characteristics
row — none is dropped or duplicated by the left merges, whose right-hand
key sets are unique (`groupby` output and de-duplicated locations): the
lengths agree, the `Num_Acc` columns agree, and per-accident row counts
agree; an accident with no person rows keeps null aggregates; and the
location attributes merged on are those of the first matching location row
of the raw table (`drop_duplicates` keeps the first). -/
theorem C7_left_join (caract : List Caract) (usagers : List Usager)
    (vehicules : List Vehicule) (lieux : List Lieu) :
    (df_accident caract usagers vehicules lieux).length = caract.length
    ∧ (df_accident caract usagers vehicules lieux).map (fun r => r.num_acc)
        = caract.map (fun c => c.num_acc)
    ∧ (∀ a : Nat,
        (df_accident caract usagers vehicules lieux).countP
            (fun r => r.num_acc == a)
          = caract.countP (fun c => c.num_acc == a))
    ∧ (∀ c ∈ caract, groupeUsagers usagers c.num_acc = [] →
        (mkAccRow c usagers vehicules lieux).nb_usagers = none
        ∧ (mkAccRow c usagers vehicules lieux).pct_hommes = none
        ∧ (mkAccRow c usagers vehicules lieux).age_moyen = none
        ∧ (mkAccRow c usagers vehicules lieux).nb_tues = none)
    ∧ (∀ c ∈ caract,
        (mkAccRow c usagers vehicules lieux).vma
            = (lieux.find? (fun x => x.num_acc == c.num_acc)).bind
                (fun x => x.vma)
          ∧ (mkAccRow c usagers vehicules lieux).catr
            = (lieux.find? (fun x => x.num_acc == c.num_acc)).bind
                (fun x => x.catr)
          ∧ (mkAccRow c usagers vehicules lieux).surf
            = (lieux.find? (fun x => x.num_acc == c.num_acc)).bind
                (fun x => x.surf)) := by
  refine ⟨?_, ?_, ?_, ?_, ?_⟩
  · simp [df_accident]
  · simp only [df_accident, List.map_map]
    rfl
  · intro a
    simp only [df_accident]
    rw [List.countP_map]
    rfl
  · intro c hc hg
    have he : (groupeUsagers usagers c.num_acc).isEmpty = true := by
      simp [hg]
    exact ⟨by rw [mkAccRow_nb_usagers, if_pos he],
      by rw [mkAccRow_pct_hommes, if_pos he],
      by rw [mkAccRow_age_moyen, if_pos he],
      by rw [mkAccRow_nb_tues, if_pos he]⟩
  · intro c hc
    exact ⟨by rw [mkAccRow_vma, find?_dedupLieux],
      by rw [mkAccRow_catr, find?_dedupLieux],
      by rw [mkAccRow_surf, find?_dedupLieux]⟩

/-- C7 witness: two characteristics rows give two output rows; the
person-less accident 2 keeps a null `nb_usagers`; with two duplicate
location rows for accident 1, the first one's `catr = 3` is retained. -/
theorem C7_left_join_witness :
    (df_accident [caractA, caractB] [usagerA] [vehA] [lieuA, lieuB]).length
      = 2
    ∧ (mkAccRow caractB [usagerA] [vehA] [lieuA, lieuB]).nb_usagers = none
    ∧ (mkAccRow caractA [usagerA] [vehA] [lieuA, lieuB]).catr = some 3 := by
  have h := C7_left_join [caractA, caractB] [usagerA] [vehA] [lieuA, lieuB]
  refine ⟨by simpa using h.1, ?_, ?_⟩
  · exact (h.2.2.2.1 caractB (by simp) (by decide)).1
  · have h5 := (h.2.2.2.2 caractA (by simp)).2.1
    rw [h5]
    decide

end Dataviz
